import Mathlib

/-!
Shallow embedding of the execution-delegation and cross-boundary safety
layer of the onnx-simplifier repository:

* `src/onnxsim/onnxsim.h` — `FoldedOp`, `FoldingRecord` (the folding audit
  log) and `ModelExecutor` (the executor registry);
* `src/onnxsim/onnxsim_ffi.cc` — the C boundary functions
  `onnxsim_simplify_bytes`, `onnxsim_simplify_file`,
  `onnxsim_get_last_error`, with the helpers `set_last_error` and
  `handle_exception`.

The external collaborators (the protobuf codec `ParseFromString` /
`SerializeToString`, the pipeline entry points `Simplify` / `SimplifyPath`,
and `std::malloc`) are modelled as an oracle environment `FfiEnv`;
C++ exceptions are modelled by `Except CppExc`; null pointers by `Option` /
boolean null-flags.  The mutable state visible to a boundary call (the
thread-local `g_last_error`, the global `g_folding_record`, and the two
caller-owned out-cells) is threaded explicitly as `FfiState`, together with
a ghost trace of the collaborator invocations and `set_last_error` calls a
run performs.
-/

/-- A C++ exception: either a `std::exception` carrying a `what()` message,
or anything else (caught by `catch (...)`). -/
inductive CppExc where
  | std (msg : String)
  | other
deriving DecidableEq, Repr

/-- The message `handle_exception` stores for an exception: `e.what()` for a
`std::exception`, the literal `"Unknown error"` otherwise. -/
def CppExc.message : CppExc → String
  | .std msg => msg
  | .other => "Unknown error"

/-- `onnxsim_error_t` from `onnxsim_ffi.h`. -/
inductive onnxsim_error_t where
  | ONNXSIM_SUCCESS
  | ONNXSIM_ERROR_INVALID_ARGUMENT
  | ONNXSIM_ERROR_PARSE_FAILED
  | ONNXSIM_ERROR_SERIALIZE_FAILED
  | ONNXSIM_ERROR_SIMPLIFICATION_FAILED
  | ONNXSIM_ERROR_INTERNAL
deriving DecidableEq, Repr

/-- `FoldedOp` from `onnxsim.h`: one audit entry. -/
structure FoldedOp where
  op_type : String
  op_name : String
  inputs : List String
  outputs : List String
  success : Bool
  error_msg : String
deriving DecidableEq, Repr

/-- `FoldingRecord` from `onnxsim.h`: the folding audit log. -/
structure FoldingRecord where
  folded_ops : List FoldedOp
  total_attempted : Nat
  total_succeeded : Nat
  total_failed : Nat
deriving DecidableEq, Repr

/-- The `FoldingRecord` default constructor: empty log, all counters zero. -/
def FoldingRecord.init : FoldingRecord :=
  { folded_ops := [], total_attempted := 0, total_succeeded := 0, total_failed := 0 }

/-- `FoldingRecord::RecordFold`: append the entry, bump `total_attempted`,
and bump exactly one of `total_succeeded` / `total_failed` according to
`op.success`. -/
def FoldingRecord.RecordFold (r : FoldingRecord) (op : FoldedOp) : FoldingRecord :=
  { folded_ops := r.folded_ops ++ [op],
    total_attempted := r.total_attempted + 1,
    total_succeeded := if op.success then r.total_succeeded + 1 else r.total_succeeded,
    total_failed := if op.success then r.total_failed else r.total_failed + 1 }

/-- `FoldingRecord::Clear`: drop all entries and zero all counters. -/
def FoldingRecord.Clear (_ : FoldingRecord) : FoldingRecord :=
  FoldingRecord.init

/-- One mutation of the audit log: a `RecordFold` call or a `Clear` call. -/
inductive RecordOp where
  | recordFold (op : FoldedOp)
  | clear
deriving DecidableEq, Repr

/-- Apply one audit-log mutation. -/
def applyRecordOp (r : FoldingRecord) (o : RecordOp) : FoldingRecord :=
  match o with
  | .recordFold op => r.RecordFold op
  | .clear => r.Clear

/-- The audit-log state reached from the initial empty record by a sequence
of `RecordFold` / `Clear` calls. -/
def runRecordOps (ops : List RecordOp) : FoldingRecord :=
  ops.foldl applyRecordOp FoldingRecord.init

/-- The audit-log invariant: `attempted = succeeded + failed = |entries|`. -/
def FoldingRecord.Inv (r : FoldingRecord) : Prop :=
  r.total_attempted = r.total_succeeded + r.total_failed ∧
  r.total_attempted = r.folded_ops.length

instance (r : FoldingRecord) : Decidable r.Inv := by
  unfold FoldingRecord.Inv; infer_instance

/-- The executor capability (`ModelExecutor`'s virtual side): `_Run` executes
a model on inputs and may throw.  `M` is the opaque `onnx::ModelProto`
type, `T` the opaque `onnx::TensorProto` type. -/
structure ModelExecutor (M T : Type) where
  run : M → List T → Except CppExc (List T)

/-- The exception `ModelExecutor::Run` throws when no executor is registered:
`std::runtime_error("empty instance")`.  This is the spec's
`NoExecutorBound` condition. -/
def noExecutorBound : CppExc := .std "empty instance"

/-- `ModelExecutor::Run` from `onnxsim.h`: with the registry holding
`instance_` (null modelled as `none`), either throw
`runtime_error("empty instance")` or delegate to the registered
capability. -/
def ModelExecutor.Run {M T : Type} (instance_ : Option (ModelExecutor M T))
    (model : M) (inputs : List T) : Except CppExc (List T) :=
  match instance_ with
  | none => .error noExecutorBound
  | some inst => inst.run model inputs

/-- Ghost trace events: which collaborator a boundary call invoked, and each
`set_last_error` store. -/
inductive Event where
  | parseCall
  | pipelineCall (skip : Option (List String))
  | serializeCall
  | mallocCall (n : Nat)
  | setErrorCall (msg : String)
deriving DecidableEq, Repr

/-- The state a boundary call can read or write: the calling thread's
`g_last_error` (empty string = no message, as in the C++ `std::string`),
the global `g_folding_record`, the two caller cells `*out_bytes_len` and
`*out_bytes` (the latter `none` when null), plus the ghost event trace. -/
structure FfiState where
  g_last_error : String
  g_folding_record : FoldingRecord
  out_bytes_len_cell : Option Nat
  out_bytes_cell : Option (List UInt8)
  trace : List Event
deriving DecidableEq, Repr

/-- A fresh thread/process state: no error message, empty audit log,
caller cells untouched. -/
def FfiState.init : FfiState :=
  { g_last_error := "", g_folding_record := FoldingRecord.init,
    out_bytes_len_cell := none, out_bytes_cell := none, trace := [] }

/-- `set_last_error` from `onnxsim_ffi.cc`: overwrite the thread-local slot
(and record the store in the ghost trace). -/
def set_last_error (msg : String) (s : FfiState) : FfiState :=
  { s with g_last_error := msg, trace := s.trace ++ [Event.setErrorCall msg] }

/-- `handle_exception` from `onnxsim_ffi.cc`: store `e.what()` for a
`std::exception`, `"Unknown error"` otherwise, and return
`ONNXSIM_ERROR_INTERNAL` in both cases. -/
def handle_exception (e : CppExc) (s : FfiState) : onnxsim_error_t × FfiState :=
  match e with
  | .std msg => (.ONNXSIM_ERROR_INTERNAL, set_last_error msg s)
  | .other => (.ONNXSIM_ERROR_INTERNAL, set_last_error "Unknown error" s)

/-- The external collaborators of the boundary, as oracles.  `M` is the
opaque deserialized model type.  `parse` models `ParseFromString` (the
`Option` is its boolean result, the `Except` a thrown exception),
`simplify` models `Simplify` (which may also mutate the global folding
record), `serialize` models `SerializeToString`, `malloc` tells whether an
allocation of the given size succeeds, and `simplifyPath` models
`SimplifyPath`. -/
structure FfiEnv (M : Type) where
  parse : List UInt8 → Except CppExc (Option M)
  simplify : M → Option (List String) → Bool → Bool → Nat →
      FoldingRecord → Except CppExc (M × FoldingRecord)
  serialize : M → Except CppExc (Option (List UInt8))
  malloc : Nat → Bool
  simplifyPath : String → String → Option (List String) → Bool → Bool → Nat →
      FoldingRecord → Except CppExc FoldingRecord

/-- The skip-optimizer marshalling shared verbatim by both boundary
functions (`onnxsim_ffi.cc` lines 70–79 and 124–133): a null array or a
zero length yields no configured skip list; otherwise the non-null entries
are copied in order. -/
def prepare_skip_opts (skip_optimizers : Option (List (Option String))) :
    Option (List String) :=
  match skip_optimizers with
  | none => none
  | some entries =>
      if 0 < entries.length then some (entries.filterMap id) else none

/-- `onnxsim_simplify_bytes` from `onnxsim_ffi.cc`.  `model_bytes = none`
models a null `model_bytes` pointer, otherwise the list holds the first
`model_bytes_len` bytes; `skip_optimizers = none` models a null array,
otherwise the list has length `skip_optimizers_len` with `none` for null
entries; `out_bytes_null` / `out_bytes_len_null` model null out-pointers. -/
def onnxsim_simplify_bytes {M : Type} (env : FfiEnv M)
    (model_bytes : Option (List UInt8))
    (skip_optimizers : Option (List (Option String)))
    (constant_folding shape_inference : Int)
    (tensor_size_threshold : Nat)
    (out_bytes_null out_bytes_len_null : Bool)
    (s : FfiState) : onnxsim_error_t × FfiState :=
  match model_bytes with
  | none =>
      (.ONNXSIM_ERROR_INVALID_ARGUMENT,
       set_last_error "model_bytes cannot be NULL" s)
  | some model_str =>
      if out_bytes_null || out_bytes_len_null then
        (.ONNXSIM_ERROR_INVALID_ARGUMENT,
         set_last_error "out_bytes or out_bytes_len cannot be NULL" s)
      else
        let s1 := { s with trace := s.trace ++ [Event.parseCall] }
        match env.parse model_str with
        | .error e => handle_exception e s1
        | .ok none =>
            (.ONNXSIM_ERROR_PARSE_FAILED,
             set_last_error "Failed to parse model protobuf" s1)
        | .ok (some model) =>
            let skip_opts := prepare_skip_opts skip_optimizers
            let s2 := { s1 with trace := s1.trace ++ [Event.pipelineCall skip_opts] }
            match env.simplify model skip_opts (constant_folding != 0)
                (shape_inference != 0) tensor_size_threshold
                s2.g_folding_record with
            | .error e => handle_exception e s2
            | .ok (simplified_model, rec) =>
                let s3 := { s2 with g_folding_record := rec,
                                    trace := s2.trace ++ [Event.serializeCall] }
                match env.serialize simplified_model with
                | .error e => handle_exception e s3
                | .ok none =>
                    (.ONNXSIM_ERROR_SERIALIZE_FAILED,
                     set_last_error "Failed to serialize simplified model" s3)
                | .ok (some output) =>
                    let s4 := { s3 with
                      out_bytes_len_cell := some output.length,
                      trace := s3.trace ++ [Event.mallocCall output.length] }
                    if env.malloc output.length then
                      (.ONNXSIM_SUCCESS, { s4 with out_bytes_cell := some output })
                    else
                      (.ONNXSIM_ERROR_INTERNAL,
                       set_last_error "Failed to allocate memory for output"
                         { s4 with out_bytes_cell := none })

/-- `onnxsim_simplify_file` from `onnxsim_ffi.cc`.  Null paths are `none`. -/
def onnxsim_simplify_file {M : Type} (env : FfiEnv M)
    (in_path out_path : Option String)
    (skip_optimizers : Option (List (Option String)))
    (constant_folding shape_inference : Int)
    (tensor_size_threshold : Nat)
    (s : FfiState) : onnxsim_error_t × FfiState :=
  match in_path, out_path with
  | some ip, some op =>
      let skip_opts := prepare_skip_opts skip_optimizers
      let s1 := { s with trace := s.trace ++ [Event.pipelineCall skip_opts] }
      match env.simplifyPath ip op skip_opts (constant_folding != 0)
          (shape_inference != 0) tensor_size_threshold s1.g_folding_record with
      | .error e => handle_exception e s1
      | .ok rec => (.ONNXSIM_SUCCESS, { s1 with g_folding_record := rec })
  | _, _ =>
      (.ONNXSIM_ERROR_INVALID_ARGUMENT,
       set_last_error "in_path and out_path cannot be NULL" s)

/-- `onnxsim_get_last_error` from `onnxsim_ffi.cc`: null (`none`) when the
thread's slot is empty, otherwise the stored message. -/
def onnxsim_get_last_error (s : FfiState) : Option String :=
  if s.g_last_error = "" then none else some s.g_last_error

/-! ## Helper lemmas -/

/-- `RecordFold` preserves the audit-log invariant. -/
theorem inv_recordFold {r : FoldingRecord} (h : r.Inv)
    (op : FoldedOp) : (r.RecordFold op).Inv := by
  obtain ⟨h1, h2⟩ := h
  constructor
  · show r.total_attempted + 1 = _
    cases hs : op.success <;>
      simp [FoldingRecord.RecordFold, hs, h1, Nat.add_assoc, Nat.add_comm,
        Nat.add_left_comm]
  · show r.total_attempted + 1 = (r.folded_ops ++ [op]).length
    simp [h2]

/-- The initial record satisfies the invariant. -/
theorem inv_init : FoldingRecord.init.Inv :=
  ⟨rfl, rfl⟩

/-- Every audit-log mutation preserves the invariant. -/
theorem inv_applyRecordOp {r : FoldingRecord} (h : r.Inv)
    (o : RecordOp) : (applyRecordOp r o).Inv := by
  cases o with
  | recordFold op => exact inv_recordFold h op
  | clear => exact inv_init

/-- The invariant holds along any foldl of audit-log mutations. -/
theorem inv_foldl {r : FoldingRecord} (h : r.Inv)
    (ops : List RecordOp) : (ops.foldl applyRecordOp r).Inv := by
  induction ops generalizing r with
  | nil => exact h
  | cons o rest ih => exact ih (inv_applyRecordOp h o)

/-! ## C1 — Run with no registered executor -/

/-- C1: for every model and input list, `ModelExecutor::Run` with a null
registered instance fails with the `NoExecutorBound` condition (the thrown
`runtime_error("empty instance")`), the same error for all graphs and
inputs; since no capability is registered, none can be (or is) invoked —
the result is independent of any `ModelExecutor.run` implementation. -/
theorem run_no_executor_fails {M T : Type} (model : M) (inputs : List T) :
    ModelExecutor.Run (none : Option (ModelExecutor M T)) model inputs =
      .error noExecutorBound :=
  rfl

/-! ## C2 — audit-log invariant -/

/-- C2: every audit-log state reachable from the initial empty record by
`RecordFold` / `Clear` calls satisfies
`attempted = succeeded + failed = |entries|`; each `RecordFold` appends
exactly one entry, bumps `attempted`, and bumps exactly one of
`succeeded` / `failed` by the entry's success flag; `Clear` empties the
entries and zeroes all three counters. -/
theorem folding_record_invariant :
    (∀ ops : List RecordOp,
      (runRecordOps ops).total_attempted =
          (runRecordOps ops).total_succeeded + (runRecordOps ops).total_failed ∧
      (runRecordOps ops).total_attempted = (runRecordOps ops).folded_ops.length) ∧
    (∀ (r : FoldingRecord) (op : FoldedOp),
      (r.RecordFold op).folded_ops = r.folded_ops ++ [op] ∧
      (r.RecordFold op).total_attempted = r.total_attempted + 1 ∧
      (op.success = true →
        (r.RecordFold op).total_succeeded = r.total_succeeded + 1 ∧
        (r.RecordFold op).total_failed = r.total_failed) ∧
      (op.success = false →
        (r.RecordFold op).total_succeeded = r.total_succeeded ∧
        (r.RecordFold op).total_failed = r.total_failed + 1)) ∧
    (∀ r : FoldingRecord,
      (r.Clear).folded_ops = [] ∧ (r.Clear).total_attempted = 0 ∧
      (r.Clear).total_succeeded = 0 ∧ (r.Clear).total_failed = 0) := by
  refine ⟨fun ops => inv_foldl inv_init ops,
    fun r op => ⟨rfl, rfl, fun hs => ?_, fun hs => ?_⟩,
    fun r => ⟨rfl, rfl, rfl, rfl⟩⟩ <;>
    simp [FoldingRecord.RecordFold, hs]

/-! ## C3 — null model buffer -/

/-- C3: `onnxsim_simplify_bytes` with a null `model_bytes` pointer returns
`ONNXSIM_ERROR_INVALID_ARGUMENT`; the audit log and both caller out-cells
are unchanged, and the trace gains exactly the one `set_last_error` store —
in particular the parser, the pipeline, the serializer and the allocator
are never invoked. -/
theorem simplify_bytes_null_model {M : Type} (env : FfiEnv M)
    (skip : Option (List (Option String))) (cf si : Int) (th : Nat)
    (obn obln : Bool) (s : FfiState) :
    (onnxsim_simplify_bytes env none skip cf si th obn obln s).1 =
        .ONNXSIM_ERROR_INVALID_ARGUMENT ∧
    (onnxsim_simplify_bytes env none skip cf si th obn obln s).2.g_folding_record =
        s.g_folding_record ∧
    (onnxsim_simplify_bytes env none skip cf si th obn obln s).2.out_bytes_len_cell =
        s.out_bytes_len_cell ∧
    (onnxsim_simplify_bytes env none skip cf si th obn obln s).2.out_bytes_cell =
        s.out_bytes_cell ∧
    (onnxsim_simplify_bytes env none skip cf si th obn obln s).2.g_last_error =
        "model_bytes cannot be NULL" ∧
    (onnxsim_simplify_bytes env none skip cf si th obn obln s).2.trace =
        s.trace ++ [Event.setErrorCall "model_bytes cannot be NULL"] := by
  refine ⟨rfl, rfl, rfl, rfl, rfl, rfl⟩

/-! ## C4 — empty-but-present skip list -/

/-- C4: a non-null `skip_optimizers` array of length zero is treated
exactly like a null one: both boundary calls produce identical results in
every component (so the pipeline sees no configured skip list), and the
marshalled configuration value is the absent one. -/
theorem empty_skip_list_is_no_skip_list {M : Type} (env : FfiEnv M)
    (model_bytes : Option (List UInt8)) (cf si : Int) (th : Nat)
    (obn obln : Bool) (s : FfiState)
    (in_path out_path : Option String) (s' : FfiState) :
    onnxsim_simplify_bytes env model_bytes (some []) cf si th obn obln s =
      onnxsim_simplify_bytes env model_bytes none cf si th obn obln s ∧
    onnxsim_simplify_file env in_path out_path (some []) cf si th s' =
      onnxsim_simplify_file env in_path out_path none cf si th s' ∧
    prepare_skip_opts (some []) = none := by
  refine ⟨?_, ?_, rfl⟩ <;> simp [onnxsim_simplify_bytes, onnxsim_simplify_file,
    prepare_skip_opts]

/-! ## C8 — null out-pointers -/

/-- C8: even with a non-null (valid) `model_bytes`, a null `out_bytes` or
`out_bytes_len` pointer makes `onnxsim_simplify_bytes` return
`ONNXSIM_ERROR_INVALID_ARGUMENT` with the message stored; the trace gains
only that store, so the parser and pipeline are never invoked, and the
audit log is unchanged. -/
theorem simplify_bytes_null_out_ptrs {M : Type} (env : FfiEnv M)
    (bs : List UInt8) (skip : Option (List (Option String)))
    (cf si : Int) (th : Nat) (obn obln : Bool) (s : FfiState)
    (h : (obn || obln) = true) :
    (onnxsim_simplify_bytes env (some bs) skip cf si th obn obln s).1 =
        .ONNXSIM_ERROR_INVALID_ARGUMENT ∧
    (onnxsim_simplify_bytes env (some bs) skip cf si th obn obln s).2.g_last_error =
        "out_bytes or out_bytes_len cannot be NULL" ∧
    (onnxsim_simplify_bytes env (some bs) skip cf si th obn obln s).2.trace =
        s.trace ++ [Event.setErrorCall "out_bytes or out_bytes_len cannot be NULL"] ∧
    (onnxsim_simplify_bytes env (some bs) skip cf si th obn obln s).2.g_folding_record =
        s.g_folding_record := by
  refine ⟨?_, ?_, ?_, ?_⟩ <;> simp [onnxsim_simplify_bytes, h, set_last_error]

/-- An all-success oracle environment over `M := Nat`, for witnesses. -/
def goodEnv : FfiEnv Nat :=
  { parse := fun _ => .ok (some 0),
    simplify := fun m _ _ _ _ r => .ok (m, r),
    serialize := fun _ => .ok (some []),
    malloc := fun _ => true,
    simplifyPath := fun _ _ _ _ _ _ r => .ok r }

/-- Witness for C8 at a concrete input: `out_bytes` null, everything else
valid. -/
theorem simplify_bytes_null_out_ptrs_witness :
    ((true : Bool) || false) = true ∧
    (onnxsim_simplify_bytes goodEnv (some []) none 0 0 0 true false
        FfiState.init).1 = .ONNXSIM_ERROR_INVALID_ARGUMENT :=
  ⟨by decide,
   (simplify_bytes_null_out_ptrs goodEnv [] none 0 0 0 true false
      FfiState.init (by decide)).1⟩

/-! ## C5 — malformed model bytes -/

/-- C5: when the protobuf parser rejects the (non-null) model bytes,
`onnxsim_simplify_bytes` returns `ONNXSIM_ERROR_PARSE_FAILED`; the trace
shows exactly the parse attempt and the error store, so the pipeline is
never invoked for that call. -/
theorem simplify_bytes_parse_failed {M : Type} (env : FfiEnv M)
    (bs : List UInt8) (skip : Option (List (Option String)))
    (cf si : Int) (th : Nat) (s : FfiState)
    (hparse : env.parse bs = .ok none) :
    (onnxsim_simplify_bytes env (some bs) skip cf si th false false s).1 =
        .ONNXSIM_ERROR_PARSE_FAILED ∧
    (onnxsim_simplify_bytes env (some bs) skip cf si th false false s).2.trace =
        s.trace ++ [Event.parseCall,
          Event.setErrorCall "Failed to parse model protobuf"] ∧
    (onnxsim_simplify_bytes env (some bs) skip cf si th false false s).2.g_last_error =
        "Failed to parse model protobuf" ∧
    (onnxsim_simplify_bytes env (some bs) skip cf si th false false s).2.g_folding_record =
        s.g_folding_record := by
  refine ⟨?_, ?_, ?_, ?_⟩ <;> simp [onnxsim_simplify_bytes, hparse, set_last_error]

/-- A parse-rejecting oracle environment, for witnesses. -/
def badParseEnv : FfiEnv Nat :=
  { goodEnv with parse := fun _ => .ok none }

/-- Witness for C5 at a concrete input. -/
theorem simplify_bytes_parse_failed_witness :
    badParseEnv.parse [] = .ok none ∧
    (onnxsim_simplify_bytes badParseEnv (some []) none 0 0 0 false false
        FfiState.init).1 = .ONNXSIM_ERROR_PARSE_FAILED :=
  ⟨rfl,
   (simplify_bytes_parse_failed badParseEnv [] none 0 0 0 FfiState.init rfl).1⟩

/-! ## C9 — null entries inside a non-empty skip array -/

/-- C9: for a non-null skip array of positive length, the skip list passed
to the pipeline is exactly the ordered subsequence of non-null entries
(`filterMap id`); if every entry is null the passed list is the
present-but-empty one, distinct from the absent value; and in a file call
the pipeline invocation indeed carries that list. -/
theorem skip_list_drops_null_entries (l : List (Option String))
    (hpos : 0 < l.length) :
    prepare_skip_opts (some l) = some (l.filterMap id) ∧
    ((∀ x ∈ l, x = none) →
      prepare_skip_opts (some l) = some [] ∧
      prepare_skip_opts (some l) ≠ prepare_skip_opts none) ∧
    (∀ (M : Type) (env : FfiEnv M) (ip op : String) (cf si : Int) (th : Nat)
        (s : FfiState),
      List.IsPrefix (s.trace ++ [Event.pipelineCall (some (l.filterMap id))])
        ((onnxsim_simplify_file env (some ip) (some op) (some l) cf si th
            s).2.trace)) := by
  have hprep : prepare_skip_opts (some l) = some (l.filterMap id) := by
    simp [prepare_skip_opts, hpos]
  refine ⟨hprep, fun hall => ⟨?_, ?_⟩, ?_⟩
  · rw [hprep, List.filterMap_eq_nil_iff.mpr (by simpa using hall)]
  · rw [hprep]; simp [prepare_skip_opts]
  · intro M env ip op cf si th s
    unfold onnxsim_simplify_file
    rw [hprep]
    rcases henv : env.simplifyPath ip op (some (l.filterMap id)) (cf != 0)
        (si != 0) th s.g_folding_record with e | rec
    · cases e <;>
        simp [henv, handle_exception, set_last_error, List.prefix_append,
          List.append_assoc]
    · simp [henv, handle_exception, set_last_error]

/-- Witness for C9 at a concrete input: a length-one all-null array. -/
theorem skip_list_drops_null_entries_witness :
    0 < ([none] : List (Option String)).length ∧
    prepare_skip_opts (some [none]) = some [] :=
  ⟨by decide,
   by
    have h := (skip_list_drops_null_entries [none] (by decide)).1
    simpa using h⟩

/-! ## C10 — malloc failure after out_bytes_len is written -/

/-- C10: when parsing, the pipeline and serialization all succeed but the
output-buffer allocation fails, `onnxsim_simplify_bytes` returns
`ONNXSIM_ERROR_INTERNAL` with the caller's `*out_bytes_len` cell already
overwritten with the serialized size (and `*out_bytes` set to null), so
the failing call is not atomic in the caller's out-parameters. -/
theorem simplify_bytes_malloc_fail_writes_len {M : Type} (env : FfiEnv M)
    (bs : List UInt8) (skip : Option (List (Option String)))
    (cf si : Int) (th : Nat) (s : FfiState)
    (m m' : M) (rec : FoldingRecord) (out : List UInt8)
    (hparse : env.parse bs = .ok (some m))
    (hsimp : env.simplify m (prepare_skip_opts skip) (cf != 0) (si != 0) th
        s.g_folding_record = .ok (m', rec))
    (hser : env.serialize m' = .ok (some out))
    (hmalloc : env.malloc out.length = false) :
    (onnxsim_simplify_bytes env (some bs) skip cf si th false false s).1 =
        .ONNXSIM_ERROR_INTERNAL ∧
    (onnxsim_simplify_bytes env (some bs) skip cf si th false false s).2.out_bytes_len_cell =
        some out.length ∧
    (onnxsim_simplify_bytes env (some bs) skip cf si th false false s).2.out_bytes_cell =
        none ∧
    (onnxsim_simplify_bytes env (some bs) skip cf si th false false s).2.g_last_error =
        "Failed to allocate memory for output" := by
  refine ⟨?_, ?_, ?_, ?_⟩ <;>
    simp [onnxsim_simplify_bytes, hparse, hsimp, hser, hmalloc, set_last_error]

/-- An environment whose allocator always fails, for witnesses. -/
def mallocFailEnv : FfiEnv Nat :=
  { goodEnv with malloc := fun _ => false }

/-- Witness for C10 at a concrete input. -/
theorem simplify_bytes_malloc_fail_writes_len_witness :
    mallocFailEnv.parse [] = .ok (some 0) ∧
    mallocFailEnv.simplify 0 (prepare_skip_opts none) ((0 : Int) != 0)
        ((0 : Int) != 0) 0 FfiState.init.g_folding_record =
      .ok (0, FfiState.init.g_folding_record) ∧
    mallocFailEnv.serialize 0 = .ok (some []) ∧
    mallocFailEnv.malloc ([] : List UInt8).length = false ∧
    (onnxsim_simplify_bytes mallocFailEnv (some []) none 0 0 0 false false
        FfiState.init).2.out_bytes_len_cell = some 0 :=
  ⟨rfl, rfl, rfl, rfl,
   (simplify_bytes_malloc_fail_writes_len mallocFailEnv [] none 0 0 0
      FfiState.init 0 0 FfiState.init.g_folding_record [] rfl rfl rfl
      rfl).2.1⟩

/-! ## C6 — exception translation at the boundary -/

/-- Every run of `onnxsim_simplify_bytes` either succeeds or has stored a
message in the thread-local slot, with the store visible in the trace. -/
theorem bytes_success_or_stores_message {M : Type} (env : FfiEnv M)
    (mb : Option (List UInt8)) (skip : Option (List (Option String)))
    (cf si : Int) (th : Nat) (obn obln : Bool) (s : FfiState) :
    (onnxsim_simplify_bytes env mb skip cf si th obn obln s).1 =
        .ONNXSIM_SUCCESS ∨
    ∃ msg,
      (onnxsim_simplify_bytes env mb skip cf si th obn obln s).2.g_last_error =
          msg ∧
      Event.setErrorCall msg ∈
        (onnxsim_simplify_bytes env mb skip cf si th obn obln
            s).2.trace.drop s.trace.length := by
  unfold onnxsim_simplify_bytes
  repeat' split
  all_goals simp [handle_exception, set_last_error, List.drop_left]
  all_goals repeat' split
  all_goals simp [set_last_error, List.drop_left]

/-- Every run of `onnxsim_simplify_file` either succeeds or has stored a
message in the thread-local slot, with the store visible in the trace. -/
theorem file_success_or_stores_message {M : Type} (env : FfiEnv M)
    (ip op : Option String) (skip : Option (List (Option String)))
    (cf si : Int) (th : Nat) (s : FfiState) :
    (onnxsim_simplify_file env ip op skip cf si th s).1 = .ONNXSIM_SUCCESS ∨
    ∃ msg,
      (onnxsim_simplify_file env ip op skip cf si th s).2.g_last_error = msg ∧
      Event.setErrorCall msg ∈
        (onnxsim_simplify_file env ip op skip cf si th
            s).2.trace.drop s.trace.length := by
  unfold onnxsim_simplify_file
  repeat' split
  all_goals simp [handle_exception, set_last_error, List.drop_left]
  all_goals repeat' split
  all_goals simp [set_last_error, List.drop_left]

/-- `onnxsim_simplify_bytes` always returns one of the five codes it can
produce — never an exception, never anything outside the enum. -/
theorem bytes_code_enumeration {M : Type} (env : FfiEnv M)
    (mb : Option (List UInt8)) (skip : Option (List (Option String)))
    (cf si : Int) (th : Nat) (obn obln : Bool) (s : FfiState) :
    (onnxsim_simplify_bytes env mb skip cf si th obn obln s).1 =
        .ONNXSIM_SUCCESS ∨
    (onnxsim_simplify_bytes env mb skip cf si th obn obln s).1 =
        .ONNXSIM_ERROR_INVALID_ARGUMENT ∨
    (onnxsim_simplify_bytes env mb skip cf si th obn obln s).1 =
        .ONNXSIM_ERROR_PARSE_FAILED ∨
    (onnxsim_simplify_bytes env mb skip cf si th obn obln s).1 =
        .ONNXSIM_ERROR_SERIALIZE_FAILED ∨
    (onnxsim_simplify_bytes env mb skip cf si th obn obln s).1 =
        .ONNXSIM_ERROR_INTERNAL := by
  unfold onnxsim_simplify_bytes
  repeat' split
  all_goals simp [handle_exception]
  all_goals repeat' split
  all_goals simp

/-- `onnxsim_simplify_file` always returns success, invalid-argument, or
internal. -/
theorem file_code_enumeration {M : Type} (env : FfiEnv M)
    (ip op : Option String) (skip : Option (List (Option String)))
    (cf si : Int) (th : Nat) (s : FfiState) :
    (onnxsim_simplify_file env ip op skip cf si th s).1 = .ONNXSIM_SUCCESS ∨
    (onnxsim_simplify_file env ip op skip cf si th s).1 =
        .ONNXSIM_ERROR_INVALID_ARGUMENT ∨
    (onnxsim_simplify_file env ip op skip cf si th s).1 =
        .ONNXSIM_ERROR_INTERNAL := by
  unfold onnxsim_simplify_file
  repeat' split
  all_goals simp [handle_exception]
  all_goals repeat' split
  all_goals simp

/-- C6: failures thrown inside deserialization, the pipeline or
serialization are caught at the boundary: the call returns
`ONNXSIM_ERROR_INTERNAL` with the exception's message (`what()` for a
`std::exception`, `"Unknown error"` otherwise) stored in the calling
thread's last-error slot; both boundary functions are total and only ever
return codes of the enum (nothing propagates as an exception); and every
failing return path has stored a message before returning. -/
theorem boundary_converts_exceptions (M : Type) (env : FfiEnv M) :
    (∀ (bs : List UInt8) (skip : Option (List (Option String))) (cf si : Int)
        (th : Nat) (s : FfiState) (e : CppExc),
      env.parse bs = .error e →
        (onnxsim_simplify_bytes env (some bs) skip cf si th false false s).1 =
            .ONNXSIM_ERROR_INTERNAL ∧
        (onnxsim_simplify_bytes env (some bs) skip cf si th false false
            s).2.g_last_error = e.message) ∧
    (∀ (bs : List UInt8) (skip : Option (List (Option String))) (cf si : Int)
        (th : Nat) (s : FfiState) (m : M) (e : CppExc),
      env.parse bs = .ok (some m) →
      env.simplify m (prepare_skip_opts skip) (cf != 0) (si != 0) th
          s.g_folding_record = .error e →
        (onnxsim_simplify_bytes env (some bs) skip cf si th false false s).1 =
            .ONNXSIM_ERROR_INTERNAL ∧
        (onnxsim_simplify_bytes env (some bs) skip cf si th false false
            s).2.g_last_error = e.message) ∧
    (∀ (bs : List UInt8) (skip : Option (List (Option String))) (cf si : Int)
        (th : Nat) (s : FfiState) (m m' : M) (rec : FoldingRecord) (e : CppExc),
      env.parse bs = .ok (some m) →
      env.simplify m (prepare_skip_opts skip) (cf != 0) (si != 0) th
          s.g_folding_record = .ok (m', rec) →
      env.serialize m' = .error e →
        (onnxsim_simplify_bytes env (some bs) skip cf si th false false s).1 =
            .ONNXSIM_ERROR_INTERNAL ∧
        (onnxsim_simplify_bytes env (some bs) skip cf si th false false
            s).2.g_last_error = e.message) ∧
    (∀ (ip op : String) (skip : Option (List (Option String))) (cf si : Int)
        (th : Nat) (s : FfiState) (e : CppExc),
      env.simplifyPath ip op (prepare_skip_opts skip) (cf != 0) (si != 0) th
          s.g_folding_record = .error e →
        (onnxsim_simplify_file env (some ip) (some op) skip cf si th s).1 =
            .ONNXSIM_ERROR_INTERNAL ∧
        (onnxsim_simplify_file env (some ip) (some op) skip cf si th
            s).2.g_last_error = e.message) ∧
    (∀ (mb : Option (List UInt8)) (skip : Option (List (Option String)))
        (cf si : Int) (th : Nat) (obn obln : Bool) (s : FfiState),
      ((onnxsim_simplify_bytes env mb skip cf si th obn obln s).1 ≠
          .ONNXSIM_SUCCESS →
        ∃ msg,
          (onnxsim_simplify_bytes env mb skip cf si th obn obln
              s).2.g_last_error = msg ∧
          Event.setErrorCall msg ∈
            (onnxsim_simplify_bytes env mb skip cf si th obn obln
                s).2.trace.drop s.trace.length) ∧
      ((onnxsim_simplify_bytes env mb skip cf si th obn obln s).1 =
          .ONNXSIM_SUCCESS ∨
       (onnxsim_simplify_bytes env mb skip cf si th obn obln s).1 =
          .ONNXSIM_ERROR_INVALID_ARGUMENT ∨
       (onnxsim_simplify_bytes env mb skip cf si th obn obln s).1 =
          .ONNXSIM_ERROR_PARSE_FAILED ∨
       (onnxsim_simplify_bytes env mb skip cf si th obn obln s).1 =
          .ONNXSIM_ERROR_SERIALIZE_FAILED ∨
       (onnxsim_simplify_bytes env mb skip cf si th obn obln s).1 =
          .ONNXSIM_ERROR_INTERNAL)) ∧
    (∀ (ip op : Option String) (skip : Option (List (Option String)))
        (cf si : Int) (th : Nat) (s : FfiState),
      ((onnxsim_simplify_file env ip op skip cf si th s).1 ≠
          .ONNXSIM_SUCCESS →
        ∃ msg,
          (onnxsim_simplify_file env ip op skip cf si th s).2.g_last_error =
              msg ∧
          Event.setErrorCall msg ∈
            (onnxsim_simplify_file env ip op skip cf si th
                s).2.trace.drop s.trace.length) ∧
      ((onnxsim_simplify_file env ip op skip cf si th s).1 =
          .ONNXSIM_SUCCESS ∨
       (onnxsim_simplify_file env ip op skip cf si th s).1 =
          .ONNXSIM_ERROR_INVALID_ARGUMENT ∨
       (onnxsim_simplify_file env ip op skip cf si th s).1 =
          .ONNXSIM_ERROR_INTERNAL)) := by
  refine ⟨?_, ?_, ?_, ?_, ?_, ?_⟩
  · intro bs skip cf si th s e hp
    cases e <;>
      simp [onnxsim_simplify_bytes, hp, handle_exception, set_last_error,
        CppExc.message]
  · intro bs skip cf si th s m e hp hs
    cases e <;>
      simp [onnxsim_simplify_bytes, hp, hs, handle_exception, set_last_error,
        CppExc.message]
  · intro bs skip cf si th s m m' rec e hp hs hser
    cases e <;>
      simp [onnxsim_simplify_bytes, hp, hs, hser, handle_exception,
        set_last_error, CppExc.message]
  · intro ip op skip cf si th s e hsp
    cases e <;>
      simp [onnxsim_simplify_file, hsp, handle_exception, set_last_error,
        CppExc.message]
  · intro mb skip cf si th obn obln s
    refine ⟨fun hfail => ?_, bytes_code_enumeration env mb skip cf si th obn obln s⟩
    rcases bytes_success_or_stores_message env mb skip cf si th obn obln s with
      h | h
    · exact absurd h hfail
    · exact h
  · intro ip op skip cf si th s
    refine ⟨fun hfail => ?_, file_code_enumeration env ip op skip cf si th s⟩
    rcases file_success_or_stores_message env ip op skip cf si th s with h | h
    · exact absurd h hfail
    · exact h

/-- An environment whose parser throws a `std::exception`, for witnesses. -/
def throwParseEnv : FfiEnv Nat :=
  { goodEnv with parse := fun _ => .error (.std "boom") }

/-- Witness for C6 at concrete inputs: a thrown parse exception becomes
`ONNXSIM_ERROR_INTERNAL` with its message stored, and a failing call with
null model bytes has stored a message. -/
theorem boundary_converts_exceptions_witness :
    throwParseEnv.parse [] = .error (.std "boom") ∧
    (onnxsim_simplify_bytes throwParseEnv (some []) none 0 0 0 false false
        FfiState.init).1 = .ONNXSIM_ERROR_INTERNAL ∧
    (onnxsim_simplify_bytes throwParseEnv (some []) none 0 0 0 false false
        FfiState.init).2.g_last_error = "boom" ∧
    (onnxsim_simplify_bytes goodEnv none none 0 0 0 false false
        FfiState.init).1 ≠ .ONNXSIM_SUCCESS ∧
    (∃ msg,
      (onnxsim_simplify_bytes goodEnv none none 0 0 0 false false
          FfiState.init).2.g_last_error = msg ∧
      Event.setErrorCall msg ∈
        (onnxsim_simplify_bytes goodEnv none none 0 0 0 false false
            FfiState.init).2.trace.drop FfiState.init.trace.length) :=
  ⟨rfl,
   ((boundary_converts_exceptions Nat throwParseEnv).1 [] none 0 0 0
      FfiState.init (.std "boom") rfl).1,
   ((boundary_converts_exceptions Nat throwParseEnv).1 [] none 0 0 0
      FfiState.init (.std "boom") rfl).2,
   by decide,
   ((boundary_converts_exceptions Nat goodEnv).2.2.2.2.1 none none 0 0 0
      false false FfiState.init).1 (by decide)⟩

/-! ## C7 — GetLastError and successful calls -/

/-- Counterexample to C7 as stated: on a fresh thread, a failing call (null
`model_bytes`, storing a message) followed by a successful call leaves the
stored message in place — `onnxsim_get_last_error` still returns it, not
the no-message result, even though no failing boundary call happened since
the last successful one.  A successful call does not reset the slot. -/
theorem get_last_error_survives_success_counterexample :
    (onnxsim_simplify_bytes goodEnv none none 0 0 0 false false
        FfiState.init).1 = .ONNXSIM_ERROR_INVALID_ARGUMENT ∧
    (onnxsim_simplify_bytes goodEnv (some []) none 0 0 0 false false
        (onnxsim_simplify_bytes goodEnv none none 0 0 0 false false
          FfiState.init).2).1 = .ONNXSIM_SUCCESS ∧
    onnxsim_get_last_error
        (onnxsim_simplify_bytes goodEnv (some []) none 0 0 0 false false
          (onnxsim_simplify_bytes goodEnv none none 0 0 0 false false
            FfiState.init).2).2 =
      some "model_bytes cannot be NULL" := by
  refine ⟨rfl, rfl, ?_⟩
  decide

/-- A successful `onnxsim_simplify_bytes` run never touches the thread's
last-error slot. -/
theorem bytes_success_keeps_last_error {M : Type} (env : FfiEnv M)
    (mb : Option (List UInt8)) (skip : Option (List (Option String)))
    (cf si : Int) (th : Nat) (obn obln : Bool) (s : FfiState) :
    (onnxsim_simplify_bytes env mb skip cf si th obn obln s).1 ≠
        .ONNXSIM_SUCCESS ∨
    (onnxsim_simplify_bytes env mb skip cf si th obn obln s).2.g_last_error =
        s.g_last_error := by
  unfold onnxsim_simplify_bytes
  repeat' split
  all_goals simp [handle_exception, set_last_error]
  all_goals repeat' split
  all_goals simp [set_last_error]

/-- A successful `onnxsim_simplify_file` run never touches the thread's
last-error slot. -/
theorem file_success_keeps_last_error {M : Type} (env : FfiEnv M)
    (ip op : Option String) (skip : Option (List (Option String)))
    (cf si : Int) (th : Nat) (s : FfiState) :
    (onnxsim_simplify_file env ip op skip cf si th s).1 ≠ .ONNXSIM_SUCCESS ∨
    (onnxsim_simplify_file env ip op skip cf si th s).2.g_last_error =
        s.g_last_error := by
  unfold onnxsim_simplify_file
  repeat' split
  all_goals simp [handle_exception, set_last_error]
  all_goals repeat' split
  all_goals simp [set_last_error]

/-- C7 amended: `onnxsim_get_last_error` returns the thread's stored
message, or the no-message result when the slot is empty — as it is on a
fresh thread where no failing boundary call has stored anything.
Successful boundary calls leave the slot untouched (they do not reset it),
and `set_last_error` overwrites it; so after a success the reported
message may stem from a failure preceding that success. -/
theorem get_last_error_reports_stored_message (M : Type) (env : FfiEnv M) :
    onnxsim_get_last_error FfiState.init = none ∧
    (∀ s : FfiState, s.g_last_error ≠ "" →
      onnxsim_get_last_error s = some s.g_last_error) ∧
    (∀ (msg : String) (s : FfiState), (set_last_error msg s).g_last_error = msg) ∧
    (∀ (mb : Option (List UInt8)) (skip : Option (List (Option String)))
        (cf si : Int) (th : Nat) (obn obln : Bool) (s : FfiState),
      (onnxsim_simplify_bytes env mb skip cf si th obn obln s).1 =
          .ONNXSIM_SUCCESS →
      (onnxsim_simplify_bytes env mb skip cf si th obn obln s).2.g_last_error =
          s.g_last_error) ∧
    (∀ (ip op : Option String) (skip : Option (List (Option String)))
        (cf si : Int) (th : Nat) (s : FfiState),
      (onnxsim_simplify_file env ip op skip cf si th s).1 = .ONNXSIM_SUCCESS →
      (onnxsim_simplify_file env ip op skip cf si th s).2.g_last_error =
          s.g_last_error) := by
  refine ⟨rfl, ?_, fun msg s => rfl, ?_, ?_⟩
  · intro s h
    simp [onnxsim_get_last_error, h]
  · intro mb skip cf si th obn obln s h
    rcases bytes_success_keeps_last_error env mb skip cf si th obn obln s with
      hne | heq
    · exact absurd h hne
    · exact heq
  · intro ip op skip cf si th s h
    rcases file_success_keeps_last_error env ip op skip cf si th s with
      hne | heq
    · exact absurd h hne
    · exact heq

/-- Witness for the amended C7 at concrete inputs: a successful call on a
thread whose slot holds `"old"` leaves `"old"` reported. -/
theorem get_last_error_reports_stored_message_witness :
    ("old" : String) ≠ "" ∧
    onnxsim_get_last_error
        { FfiState.init with g_last_error := "old" } = some "old" ∧
    (onnxsim_simplify_bytes goodEnv (some []) none 0 0 0 false false
        { FfiState.init with g_last_error := "old" }).1 = .ONNXSIM_SUCCESS ∧
    (onnxsim_simplify_bytes goodEnv (some []) none 0 0 0 false false
        { FfiState.init with g_last_error := "old" }).2.g_last_error = "old" :=
  ⟨by decide,
   (get_last_error_reports_stored_message Nat goodEnv).2.1
     { FfiState.init with g_last_error := "old" } (by decide),
   rfl,
   (get_last_error_reports_stored_message Nat goodEnv).2.2.2.1 (some []) none
     0 0 0 false false { FfiState.init with g_last_error := "old" } rfl⟩

/-- Witness for C2 at concrete inputs: a successful fold entry bumps
`succeeded` and not `failed`, and a concrete mutation sequence satisfies
the counter invariant. -/
theorem folding_record_invariant_witness :
    (FoldedOp.mk "Add" "n0" ["a"] ["b"] true "").success = true ∧
    (FoldingRecord.init.RecordFold
        (FoldedOp.mk "Add" "n0" ["a"] ["b"] true "")).total_succeeded =
      FoldingRecord.init.total_succeeded + 1 ∧
    (runRecordOps [RecordOp.recordFold (FoldedOp.mk "Add" "n0" ["a"] ["b"] true ""),
        RecordOp.clear,
        RecordOp.recordFold (FoldedOp.mk "Mul" "n1" [] [] false "err")]).total_attempted =
      (runRecordOps [RecordOp.recordFold (FoldedOp.mk "Add" "n0" ["a"] ["b"] true ""),
        RecordOp.clear,
        RecordOp.recordFold (FoldedOp.mk "Mul" "n1" [] [] false "err")]).total_succeeded +
      (runRecordOps [RecordOp.recordFold (FoldedOp.mk "Add" "n0" ["a"] ["b"] true ""),
        RecordOp.clear,
        RecordOp.recordFold (FoldedOp.mk "Mul" "n1" [] [] false "err")]).total_failed :=
  ⟨rfl,
   ((folding_record_invariant.2.1 FoldingRecord.init
      (FoldedOp.mk "Add" "n0" ["a"] ["b"] true "")).2.2.1 rfl).1,
   (folding_record_invariant.1
      [RecordOp.recordFold (FoldedOp.mk "Add" "n0" ["a"] ["b"] true ""),
       RecordOp.clear,
       RecordOp.recordFold (FoldedOp.mk "Mul" "n1" [] [] false "err")]).1⟩
